import Mathlib

/-
Verification of the cart-to-order pipeline of the supermarket customer-app
backend (a TypeScript/Express service split across a customer store, a catalog
store and a shared order store).

The embedding is shallow: each controller function is translated into a pure
Lean function.  Asynchronous store access is made explicit: the customer's
cart, the catalog contents, the readiness of the shared (admin) order store
and the success of the persistence write are parameters; the functions return
the HTTP-level outcome together with the cart state after the call.  JS
numbers carrying money are embedded as rationals, quantities and stock levels
as naturals, and JS string truthiness (`!x` on an optional string) is embedded
on `Option String`.

Sources embedded here:
  - src/controllers/orders.ts   (createOrder, getOrders/getOrder enum tables)
  - the cart controller          (addToCart, removeFromCart)
  - src/models/AdminOrder.ts     (shape of the persisted order record)
-/

namespace SCA

/-- Catalog-store product as read by the controllers.  The admin DB stores the
stock level in the field `stock`; a virtual `stockQuantity` mirrors it for
compatibility, and the controllers read `product.stock || product.stockQuantity
|| 0`.  `status` is the raw status string of the catalog store (the active
value is "ACTIVE"). -/
structure Product where
  id : String
  name : String
  price : ℚ
  stock : Nat
  stockQuantity : Nat
  status : String
  deriving DecidableEq, Repr

/-- Cart line as persisted in the customer store: an opaque product reference
and a quantity. -/
structure CartItem where
  product : String
  quantity : Nat
  deriving DecidableEq, Repr

/-- JS truthiness of the fields destructured from the request body: an absent
field or an empty string is falsy. -/
def truthy : Option String → Bool
  | none => false
  | some s => !(s == "")

/-- Embeds `product.stock || product.stockQuantity || 0` (JS `||` falls
through on the falsy number 0). -/
def availableStock (p : Product) : Nat :=
  if p.stock ≠ 0 then p.stock else p.stockQuantity

/-- Embeds `Product.findById(productId)`: plain lookup by id, with no filter
on the product's status. -/
def findById (catalog : List Product) (pid : String) : Option Product :=
  catalog.find? (fun p => p.id == pid)

/-- Embeds the catalog query of createOrder,
`Product.find({ _id: { $in: productIds }, status: "ACTIVE" })` followed by the
productMap lookup: a product is resolved only when its status is "ACTIVE". -/
def resolveActive (catalog : List Product) (pid : String) : Option Product :=
  catalog.find? (fun p => p.status == "ACTIVE" && p.id == pid)

/-- Outcome of the addToCart controller. -/
inductive AddCartResult where
  | success
  | notFound
  | insufficientStock
  deriving DecidableEq, Repr

/-- Inner step of addToCart on an existing cart: find the first line for the
product (`findIndex`); if present, merge quantities, re-checking the merged
quantity against stock (`newQuantity > availableStock` rejects); otherwise
push a new line at the end. -/
def addToExisting (p : Product) (pid : String) (qty : Nat) :
    List CartItem → AddCartResult × List CartItem
  | [] => (.success, [⟨pid, qty⟩])
  | it :: rest =>
    if it.product = pid then
      let newQty := it.quantity + qty
      if newQty > availableStock p then (.insufficientStock, it :: rest)
      else (.success, ⟨it.product, newQty⟩ :: rest)
    else
      ((addToExisting p pid qty rest).1, it :: (addToExisting p pid qty rest).2)

/-- Embeds the addToCart controller.  `cart` is the customer's cart looked up
in the customer store (`none` when no cart document exists).  Returns the
outcome and the cart state after the call (a fresh cart is created when none
existed). -/
def addToCart (catalog : List Product) (pid : String) (qty : Nat)
    (cart : Option (List CartItem)) : AddCartResult × Option (List CartItem) :=
  match findById catalog pid with
  | none => (.notFound, cart)
  | some p =>
    if availableStock p < qty then (.insufficientStock, cart)
    else
      match cart with
      | none => (.success, some [⟨pid, qty⟩])
      | some items =>
        ((addToExisting p pid qty items).1, some (addToExisting p pid qty items).2)

/-- Outcome of the removeFromCart controller. -/
inductive RemoveCartResult where
  | success
  | cartNotFound
  deriving DecidableEq, Repr

/-- Embeds the removeFromCart controller:
`cart.items = cart.items.filter(item => item.product.toString() !== productId)`;
a missing cart document is a 404. -/
def removeFromCart (cart : Option (List CartItem)) (pid : String) :
    RemoveCartResult × Option (List CartItem) :=
  match cart with
  | none => (.cartNotFound, none)
  | some items => (.success, some (items.filter (fun it => !(it.product == pid))))

/-- Quantity of the first cart line for a given product reference. -/
def lineQty (items : List CartItem) (pid : String) : Option Nat :=
  (items.find? (fun it => it.product == pid)).map CartItem.quantity

/-- Error raised by the per-line validation loop of createOrder. -/
inductive LineError where
  | productNotFound
  | insufficientStock (name : String)
  deriving DecidableEq, Repr

/-- Order line pushed by the createOrder loop (the admin-DB shape also carries
a per-line subtotal, `price * quantity`, recomputed below). -/
structure OrderItem where
  product : String
  name : String
  price : ℚ
  quantity : Nat
  deriving DecidableEq, Repr

/-- Embeds the validation loop of createOrder: each cart line must resolve
through the ACTIVE-filtered product map, its quantity is checked against
`availableStock < item.quantity`, and the loop accumulates the order lines and
the subtotal `Σ product.price * item.quantity`. -/
def buildOrderItems (resolve : String → Option Product) :
    List CartItem → Except LineError (List OrderItem × ℚ)
  | [] => .ok ([], 0)
  | it :: rest =>
    match resolve it.product with
    | none => .error .productNotFound
    | some p =>
      if availableStock p < it.quantity then .error (.insufficientStock p.name)
      else
        match buildOrderItems resolve rest with
        | .error e => .error e
        | .ok (ois, sub) =>
          .ok (⟨p.id, p.name, p.price, it.quantity⟩ :: ois, p.price * it.quantity + sub)

/-- `TAX_RATE = 0.18` of orders.ts, as the exact rational 18/100. -/
def TAX_RATE : ℚ := 18 / 100

/-- `DELIVERY_FEE = 50` of orders.ts. -/
def DELIVERY_FEE : ℚ := 50

/-- `tax = subtotal * TAX_RATE`. -/
def taxOf (subtotal : ℚ) : ℚ := subtotal * TAX_RATE

/-- `deliveryFee = subtotal >= 500 ? 0 : DELIVERY_FEE`. -/
def deliveryFeeOf (subtotal : ℚ) : ℚ := if 500 ≤ subtotal then 0 else DELIVERY_FEE

/-- `total = subtotal + tax + deliveryFee`. -/
def totalOf (subtotal : ℚ) : ℚ := subtotal + taxOf subtotal + deliveryFeeOf subtotal

/-- Customer→shared payment-method table of createOrder (orders.ts lines
128-131): the map literal holds only the keys cod and razorpay, and the use
site is `paymentMethodMap[paymentMethod] || 'OTHER'`. -/
def paymentMethodToShared (m : String) : String :=
  if m = "cod" then "CASH"
  else if m = "razorpay" then "ONLINE"
  else "OTHER"

/-- Shared→customer payment-method table of getOrders/getOrder (orders.ts
lines 264-269), with the `|| 'other'` fallback at the use site. -/
def paymentMethodToCustomer (m : String) : String :=
  if m = "CASH" then "cod"
  else if m = "CARD" then "card"
  else if m = "ONLINE" then "razorpay"
  else if m = "OTHER" then "other"
  else "other"

/-- Shared→customer order-status table of getOrders/getOrder (orders.ts lines
254-261 and 331-338), with the `|| 'placed'` fallback at the use site. -/
def statusToCustomer (s : String) : String :=
  if s = "PLACED" then "placed"
  else if s = "PROCESSING" then "processing"
  else if s = "PACKED" then "processing"
  else if s = "OUT_FOR_DELIVERY" then "shipped"
  else if s = "DELIVERED" then "delivered"
  else if s = "CANCELLED" then "cancelled"
  else "placed"

/-- Modelled from the spec: the customer→shared direction of the EnumTranslator
order-status table (spec section 4.5) is not present in the source (order
creation always writes the shared status PLACED, and the controllers only
translate shared→customer for display); the spec's table maps placed→PLACED,
processing→PROCESSING, shipped→OUT_FOR_DELIVERY, delivered→DELIVERED,
cancelled→CANCELLED.  The fallback branch is immaterial to the table, which is
closed over the five customer-facing values. -/
def statusToShared (s : String) : String :=
  if s = "placed" then "PLACED"
  else if s = "processing" then "PROCESSING"
  else if s = "shipped" then "OUT_FOR_DELIVERY"
  else if s = "delivered" then "DELIVERED"
  else if s = "cancelled" then "CANCELLED"
  else "PLACED"

/-- Embeds the order-number generation of createOrder:
ORD-(Date.now())-(random suffix).  The timestamp and the random draw are
parameters of the embedding. -/
def genOrderNumber (timestamp : Nat) (suffix : String) : String :=
  "ORD-" ++ toString timestamp ++ "-" ++ suffix

/-- Order numbers produced by a sequence of creation attempts, each attempt
carrying its Date.now() reading and its Math.random() suffix draw. -/
def attemptNumbers (attempts : List (Nat × String)) : List String :=
  attempts.map (fun a => genOrderNumber a.1 a.2)

/-- Order record persisted in the shared (admin) order store, per
src/models/AdminOrder.ts (fields not touched by the claims are omitted:
customer ref, shipping address snapshot, timestamps). -/
structure AdminOrderRec where
  orderNumber : String
  items : List OrderItem
  subtotal : ℚ
  tax : ℚ
  shipping : ℚ
  total : ℚ
  status : String
  paymentMethod : String
  paymentStatus : String
  deriving DecidableEq, Repr

/-- Request body of POST /orders as destructured by createOrder. -/
structure CreateOrderRequest where
  addressId : Option String
  paymentMethod : Option String
  razorpayOrderId : Option String
  razorpayPaymentId : Option String
  deriving DecidableEq, Repr

/-- Environment of one createOrder invocation: readiness of the shared order
store (`adminDbConnection.readyState === 1`), success of the persistence write
(`AdminOrder.create`), and the order-number inputs. -/
structure OrderEnv where
  adminReady : Bool
  persistOk : Bool
  timestamp : Nat
  randomSuffix : String
  deriving DecidableEq, Repr

/-- Outcome of the createOrder controller (one constructor per early return of
the source: 400 missing fields, 400 missing razorpay details, 400 empty cart,
404 address, 400 product not found, 400 insufficient stock, 503 store not
ready, 500 persistence failure, 201 created). -/
inductive CreateOrderResult where
  | missingFields
  | missingRazorpayDetails
  | cartEmpty
  | addressNotFound
  | productNotFound
  | stockConflict (name : String)
  | serviceUnavailable
  | persistFailure
  | created (o : AdminOrderRec)
  deriving DecidableEq, Repr

/-- Embeds the createOrder controller of src/controllers/orders.ts.  Inputs:
the request body, the customer's cart as found in the customer store, whether
the address lookup succeeded, the catalog contents, and the invocation
environment.  Returns the outcome and the cart state after the call; the
source clears the cart (`cart.items = []; await cart.save()`) only after
`AdminOrder.create` succeeds, and every early return leaves the cart as it
was. -/
def createOrder (req : CreateOrderRequest) (cart : Option (List CartItem))
    (addressFound : Bool) (catalog : List Product) (env : OrderEnv) :
    CreateOrderResult × Option (List CartItem) :=
  if !(truthy req.addressId) || !(truthy req.paymentMethod) then
    (.missingFields, cart)
  else if req.paymentMethod == some "razorpay" &&
      (!(truthy req.razorpayOrderId) || !(truthy req.razorpayPaymentId)) then
    (.missingRazorpayDetails, cart)
  else
    match cart with
    | none => (.cartEmpty, none)
    | some items =>
      if items.isEmpty then (.cartEmpty, some items)
      else if !addressFound then (.addressNotFound, some items)
      else
        match buildOrderItems (resolveActive catalog) items with
        | .error .productNotFound => (.productNotFound, some items)
        | .error (.insufficientStock n) => (.stockConflict n, some items)
        | .ok (orderItems, subtotal) =>
          if !env.adminReady then (.serviceUnavailable, some items)
          else if !env.persistOk then (.persistFailure, some items)
          else
            let pm := req.paymentMethod.getD ""
            (.created ⟨genOrderNumber env.timestamp env.randomSuffix,
              orderItems, subtotal, taxOf subtotal, deliveryFeeOf subtotal,
              subtotal + taxOf subtotal + deliveryFeeOf subtotal, "PLACED",
              paymentMethodToShared pm,
              if pm = "cod" then "PENDING" else "PAID"⟩,
            some [])

/-- Order record persisted by an invocation, when any: `AdminOrder.create`
runs exactly on the path that returns 201. -/
def writtenOrder : CreateOrderResult → Option AdminOrderRec
  | .created o => some o
  | _ => none

/-- Sample catalog: a single active product. -/
def catalogRice : List Product := [⟨"p1", "Rice", 100, 10, 0, "ACTIVE"⟩]

/-- Sample catalog: a single inactive product with stock on hand. -/
def catalogMilkInactive : List Product := [⟨"p1", "Milk", 30, 10, 0, "INACTIVE"⟩]

/-- Sample request: cash on delivery with an address. -/
def reqCod : CreateOrderRequest := ⟨some "addr1", some "cod", none, none⟩

/-- Sample environment: both checks pass. -/
def envReady : OrderEnv := ⟨true, true, 1000, "A1B2C3"⟩

/-- Sample environment: store ready but the persistence write fails. -/
def envNoPersist : OrderEnv := ⟨true, false, 1000, "A1B2C3"⟩

/-- Sample environment: shared order store not ready. -/
def envNotReady : OrderEnv := ⟨false, true, 1000, "A1B2C3"⟩

/-- Sample cart: two units of the sample product. -/
def cartRice2 : List CartItem := [⟨"p1", 2⟩]

/-- Sample cart: twenty units, more than the sample stock of ten. -/
def cartRice20 : List CartItem := [⟨"p1", 20⟩]

/-- Order record that the sample checkout persists. -/
def orderRice2 : AdminOrderRec :=
  ⟨"ORD-1000-A1B2C3", [⟨"p1", "Rice", 100, 2⟩], 200, 36, 50, 286, "PLACED",
    "CASH", "PENDING"⟩

/- Helper lemmas shared by the claim theorems. -/

/-- A product returned by the ACTIVE-filtered resolver has status "ACTIVE" and
carries the requested id. -/
theorem resolveActive_eq_some {catalog : List Product} {pid : String} {p : Product}
    (h : resolveActive catalog pid = some p) : p.status = "ACTIVE" ∧ p.id = pid := by
  unfold resolveActive at h
  have hp := List.find?_some h
  simpa [Bool.and_eq_true, beq_iff_eq] using hp

/-- When the validation loop succeeds, every cart line resolved. -/
theorem buildOrderItems_ok_resolves {resolve : String → Option Product}
    {items : List CartItem} {ois : List OrderItem} {sub : ℚ}
    (h : buildOrderItems resolve items = .ok (ois, sub)) :
    ∀ it ∈ items, ∃ p, resolve it.product = some p := by
  induction items generalizing ois sub with
  | nil => intro it hit; cases hit
  | cons hd tl ih =>
    intro it hit
    simp only [buildOrderItems] at h
    rcases hres : resolve hd.product with _ | p <;> simp only [hres] at h
    · cases h
    · by_cases hs : availableStock p < hd.quantity
      · rw [if_pos hs] at h; cases h
      · rw [if_neg hs] at h
        rcases hrec : buildOrderItems resolve tl with e | ⟨ois', sub'⟩ <;>
          simp only [hrec] at h
        · cases h
        · rw [List.mem_cons] at hit
          rcases hit with rfl | hit
          · exact ⟨p, hres⟩
          · exact ih hrec it hit

/-- When the validation loop succeeds, every produced order line comes from a
cart line whose reference resolved to the product whose id, name and price the
order line carries. -/
theorem buildOrderItems_ok_items {resolve : String → Option Product}
    {items : List CartItem} {ois : List OrderItem} {sub : ℚ}
    (h : buildOrderItems resolve items = .ok (ois, sub)) :
    ∀ oi ∈ ois, ∃ it ∈ items, ∃ p, resolve it.product = some p ∧
      oi = ⟨p.id, p.name, p.price, it.quantity⟩ := by
  induction items generalizing ois sub with
  | nil =>
    simp only [buildOrderItems, Except.ok.injEq, Prod.mk.injEq] at h
    obtain ⟨rfl, rfl⟩ := h
    intro oi hoi; cases hoi
  | cons hd tl ih =>
    intro oi hoi
    simp only [buildOrderItems] at h
    rcases hres : resolve hd.product with _ | p <;> simp only [hres] at h
    · cases h
    · by_cases hs : availableStock p < hd.quantity
      · rw [if_pos hs] at h; cases h
      · rw [if_neg hs] at h
        rcases hrec : buildOrderItems resolve tl with e | ⟨ois', sub'⟩ <;>
          simp only [hrec] at h
        · cases h
        · simp only [Except.ok.injEq, Prod.mk.injEq] at h
          obtain ⟨rfl, rfl⟩ := h
          rw [List.mem_cons] at hoi
          rcases hoi with rfl | hoi
          · exact ⟨hd, List.mem_cons_self hd tl, p, hres, rfl⟩
          · rcases ih hrec oi hoi with ⟨it, hit, p', hp', rfl⟩
            exact ⟨it, List.mem_cons_of_mem hd hit, p', hp', rfl⟩

/-- Once the request, cart and address guards pass, createOrder is determined
by the validation loop and the two store checks. -/
theorem createOrder_reaches_loop {req : CreateOrderRequest} {cart : Option (List CartItem)}
    {addressFound : Bool} {items : List CartItem}
    (catalog : List Product) (env : OrderEnv)
    (ha : truthy req.addressId = true) (hpm : truthy req.paymentMethod = true)
    (hrz : (req.paymentMethod == some "razorpay" &&
      (!(truthy req.razorpayOrderId) || !(truthy req.razorpayPaymentId))) = false)
    (hc : cart = some items) (hne : items.isEmpty = false) (haf : addressFound = true) :
    createOrder req cart addressFound catalog env =
      match buildOrderItems (resolveActive catalog) items with
      | .error .productNotFound => (.productNotFound, some items)
      | .error (.insufficientStock n) => (.stockConflict n, some items)
      | .ok (orderItems, subtotal) =>
        if !env.adminReady then (.serviceUnavailable, some items)
        else if !env.persistOk then (.persistFailure, some items)
        else
          (.created ⟨genOrderNumber env.timestamp env.randomSuffix, orderItems,
            subtotal, taxOf subtotal, deliveryFeeOf subtotal,
            subtotal + taxOf subtotal + deliveryFeeOf subtotal, "PLACED",
            paymentMethodToShared (req.paymentMethod.getD ""),
            if req.paymentMethod.getD "" = "cod" then "PENDING" else "PAID"⟩,
          some []) := by
  subst hc haf
  simp only [createOrder, ha, hpm, hrz, Bool.not_true, Bool.or_self, Bool.false_eq_true,
    if_false]
  rw [hne]
  simp only [Bool.false_eq_true, if_false, Bool.not_true]

/-- Master case analysis on the cart state after createOrder: either the cart
is untouched, or the persistence write succeeded, the outcome is the created
order and the cart was cleared. -/
theorem createOrder_snd_cases (req : CreateOrderRequest) (cart : Option (List CartItem))
    (addressFound : Bool) (catalog : List Product) (env : OrderEnv) :
    (createOrder req cart addressFound catalog env).2 = cart ∨
    (env.persistOk = true ∧
      ∃ o, createOrder req cart addressFound catalog env = (.created o, some [])) := by
  unfold createOrder
  by_cases h1 : (!(truthy req.addressId) || !(truthy req.paymentMethod)) = true
  · rw [if_pos h1]; exact Or.inl rfl
  rw [if_neg h1]
  by_cases h2 : (req.paymentMethod == some "razorpay" &&
      (!(truthy req.razorpayOrderId) || !(truthy req.razorpayPaymentId))) = true
  · rw [if_pos h2]; exact Or.inl rfl
  rw [if_neg h2]
  rcases cart with _ | items
  · exact Or.inl rfl
  try dsimp only
  by_cases h3 : items.isEmpty = true
  · rw [if_pos h3]; exact Or.inl rfl
  rw [if_neg h3]
  by_cases h4 : (!addressFound) = true
  · rw [if_pos h4]; exact Or.inl rfl
  rw [if_neg h4]
  rcases hb : buildOrderItems (resolveActive catalog) items with e | ⟨ois, sub⟩
  · rcases e with _ | n <;> exact Or.inl rfl
  try dsimp only
  by_cases h5 : (!env.adminReady) = true
  · rw [if_pos h5]; exact Or.inl rfl
  rw [if_neg h5]
  by_cases h6 : (!env.persistOk) = true
  · rw [if_pos h6]; exact Or.inl rfl
  rw [if_neg h6]
  refine Or.inr ⟨by simpa using h6, _, rfl⟩

/-- Inversion of the successful createOrder run: a created outcome pins down
the whole pipeline state. -/
theorem createOrder_created_inv {req : CreateOrderRequest} {cart : Option (List CartItem)}
    {addressFound : Bool} {catalog : List Product} {env : OrderEnv} {o : AdminOrderRec}
    (h : (createOrder req cart addressFound catalog env).1 = .created o) :
    ∃ items ois sub, cart = some items ∧
      buildOrderItems (resolveActive catalog) items = .ok (ois, sub) ∧
      o = ⟨genOrderNumber env.timestamp env.randomSuffix, ois, sub, taxOf sub,
        deliveryFeeOf sub, sub + taxOf sub + deliveryFeeOf sub, "PLACED",
        paymentMethodToShared (req.paymentMethod.getD ""),
        if req.paymentMethod.getD "" = "cod" then "PENDING" else "PAID"⟩ ∧
      env.adminReady = true ∧ env.persistOk = true := by
  unfold createOrder at h
  by_cases h1 : (!(truthy req.addressId) || !(truthy req.paymentMethod)) = true
  · rw [if_pos h1] at h; cases h
  rw [if_neg h1] at h
  by_cases h2 : (req.paymentMethod == some "razorpay" &&
      (!(truthy req.razorpayOrderId) || !(truthy req.razorpayPaymentId))) = true
  · rw [if_pos h2] at h; cases h
  rw [if_neg h2] at h
  rcases cart with _ | items
  · cases h
  try dsimp only at h
  by_cases h3 : items.isEmpty = true
  · rw [if_pos h3] at h; cases h
  rw [if_neg h3] at h
  by_cases h4 : (!addressFound) = true
  · rw [if_pos h4] at h; cases h
  rw [if_neg h4] at h
  rcases hb : buildOrderItems (resolveActive catalog) items with e | ⟨ois, sub⟩ <;>
    simp only [hb] at h
  · rcases e with _ | n <;> cases h
  by_cases h5 : (!env.adminReady) = true
  · rw [if_pos h5] at h; cases h
  rw [if_neg h5] at h
  by_cases h6 : (!env.persistOk) = true
  · rw [if_pos h6] at h; cases h
  rw [if_neg h6] at h
  injection h with h
  exact ⟨items, ois, sub, rfl, hb, h.symm, by simpa using h5, by simpa using h6⟩

/-- On a successful addToCart merge pass (the request quantity itself already
validated against stock), the first cart line for the product ends up with a
quantity bounded by the product's available stock. -/
theorem addToExisting_success_qty {p : Product} {pid : String} {qty : Nat}
    (hq : ¬ availableStock p < qty) :
    ∀ items : List CartItem, (addToExisting p pid qty items).1 = .success →
      ∃ n, lineQty (addToExisting p pid qty items).2 pid = some n ∧
        n ≤ availableStock p := by
  intro items
  induction items with
  | nil =>
    intro _
    exact ⟨qty, by simp [addToExisting, lineQty], Nat.le_of_not_lt hq⟩
  | cons it rest ih =>
    intro hs
    by_cases hp : it.product = pid
    · simp only [addToExisting, if_pos hp] at hs ⊢
      by_cases hover : it.quantity + qty > availableStock p
      · rw [if_pos hover] at hs; cases hs
      · rw [if_neg hover]
        refine ⟨it.quantity + qty, ?_, Nat.le_of_not_lt hover⟩
        simp [lineQty, List.find?_cons_of_pos, hp]
    · simp only [addToExisting, if_neg hp] at hs ⊢
      rcases ih hs with ⟨n, hn, hle⟩
      refine ⟨n, ?_, hle⟩
      simp only [lineQty] at hn ⊢
      rw [List.find?_cons_of_neg]
      · exact hn
      · simp [hp]

/-- C3 counterexample: the claim says the customer value "card" translates to
the shared value "CARD", but the createOrder map holds only cod and razorpay,
so "card" falls through to "OTHER". -/
theorem paymentMethod_card_translates_to_OTHER :
    paymentMethodToShared "card" = "OTHER" ∧ paymentMethodToShared "card" ≠ "CARD" := by
  exact ⟨by decide, by decide⟩

/-- C3 (amended): the customer→shared payment translation maps cod to CASH and
razorpay to ONLINE, sends every other input (including "card") to OTHER, and
round-trips on cod and razorpay through the shared→customer table. -/
theorem paymentMethod_translation_amended :
    paymentMethodToShared "cod" = "CASH" ∧
    paymentMethodToShared "razorpay" = "ONLINE" ∧
    (∀ m : String, m ≠ "cod" → m ≠ "razorpay" → paymentMethodToShared m = "OTHER") ∧
    paymentMethodToCustomer (paymentMethodToShared "cod") = "cod" ∧
    paymentMethodToCustomer (paymentMethodToShared "razorpay") = "razorpay" := by
  refine ⟨by decide, by decide, ?_, by decide, by decide⟩
  intro m h1 h2
  simp [paymentMethodToShared, h1, h2]

/-- C3 witness: the amended theorem applied to the concrete unmapped method
"card". -/
theorem paymentMethod_translation_amended_witness :
    paymentMethodToShared "card" = "OTHER" :=
  paymentMethod_translation_amended.2.2.1 "card" (by decide) (by decide)

/-- C4 counterexample: two distinct creation attempts in the same millisecond
whose Math.random draws coincide produce the same order number, refuting the
claim that same-millisecond attempts always yield distinct numbers. -/
theorem orderNumber_same_millisecond_collision :
    (attemptNumbers [(1000, "A1B2C3"), (1000, "A1B2C3")]).length = 2 ∧
    ¬ (attemptNumbers [(1000, "A1B2C3"), (1000, "A1B2C3")]).Nodup := by
  constructor
  · rfl
  · decide

/-- C4 (amended): every generated order number has the shape
ORD-(timestamp)-(suffix), and within one millisecond two generated numbers are
distinct exactly when the random suffixes are distinct — uniqueness of
same-millisecond attempts is only as good as the random draws. -/
theorem genOrderNumber_shape_and_suffix_injective :
    (∀ (t : Nat) (s : String), genOrderNumber t s = "ORD-" ++ toString t ++ "-" ++ s) ∧
    (∀ (t : Nat) (s₁ s₂ : String),
      genOrderNumber t s₁ = genOrderNumber t s₂ ↔ s₁ = s₂) := by
  refine ⟨fun t s => rfl, fun t s₁ s₂ => ⟨fun h => ?_, fun h => by rw [h]⟩⟩
  have hd := congrArg String.data h
  simp only [genOrderNumber, String.data_append] at hd
  exact String.ext (List.append_cancel_left hd)

/-- C5: the shared→customer status table collapses PACKED and PROCESSING to
"processing", the spec's customer→shared direction sends "processing" to
PROCESSING, and hence the shared→customer→shared round trip starting from
PACKED does not return PACKED. -/
theorem statusTranslation_packed_processing_roundtrip :
    statusToCustomer "PACKED" = "processing" ∧
    statusToCustomer "PROCESSING" = "processing" ∧
    statusToShared "processing" = "PROCESSING" ∧
    statusToShared (statusToCustomer "PACKED") ≠ "PACKED" := by
  exact ⟨by decide, by decide, by decide, by decide⟩

/-- C6 counterexample: addToCart looks the product up with a plain findById
and never consults its status, so a product whose status is not active (here
"INACTIVE") with sufficient stock is accepted and the cart is modified,
refuting the claim that inactive products are rejected with NotFound. -/
theorem addToCart_inactive_product_accepted :
    (addToCart catalogMilkInactive "p1" 2 (some [])).1 = .success ∧
    (addToCart catalogMilkInactive "p1" 2 (some [])).1 ≠ .notFound ∧
    (addToCart catalogMilkInactive "p1" 2 (some [])).2 = some [⟨"p1", 2⟩] ∧
    (findById catalogMilkInactive "p1").map Product.status = some "INACTIVE" := by
  exact ⟨rfl, by decide, rfl, rfl⟩

/-- C6 (amended): addToCart rejects with NotFound, leaving the cart unchanged,
exactly when the product is absent from the catalog; the product's status is
not checked at add time. -/
theorem addToCart_not_found_rejected :
    ∀ (catalog : List Product) (pid : String) (qty : Nat)
      (cart : Option (List CartItem)),
      findById catalog pid = none →
      addToCart catalog pid qty cart = (.notFound, cart) := by
  intro catalog pid qty cart h
  simp [addToCart, h]

/-- C6 witness: the amended theorem applied to an empty catalog. -/
theorem addToCart_not_found_rejected_witness :
    addToCart [] "p9" 1 (some []) = (.notFound, some []) :=
  addToCart_not_found_rejected [] "p9" 1 (some []) rfl

/-- C10: removing a product reference that is not in the cart succeeds and
leaves the line list unchanged, and removing the same reference twice gives
the same cart state as removing it once. -/
theorem removeFromCart_idempotent :
    (∀ (items : List CartItem) (pid : String),
      pid ∉ items.map CartItem.product →
      removeFromCart (some items) pid = (.success, some items)) ∧
    (∀ (items : List CartItem) (pid : String),
      removeFromCart (removeFromCart (some items) pid).2 pid =
        removeFromCart (some items) pid) := by
  constructor
  · intro items pid h
    have hall : ∀ it ∈ items, (!(it.product == pid)) = true := by
      intro it hit
      simp only [Bool.not_eq_true', beq_eq_false_iff_ne]
      intro hEq
      exact h (hEq ▸ List.mem_map_of_mem CartItem.product hit)
    simp only [removeFromCart]
    rw [List.filter_eq_self.mpr hall]
  · intro items pid
    simp only [removeFromCart]
    rw [List.filter_filter]
    simp [Bool.and_self]

/-- C10 witness: removing an absent reference from a concrete one-line cart. -/
theorem removeFromCart_idempotent_witness :
    removeFromCart (some [⟨"a", 1⟩]) "b" = (.success, some [⟨"a", 1⟩]) :=
  removeFromCart_idempotent.1 [⟨"a", 1⟩] "b" (by decide)

/-- C7: after a successful addToCart, the quantity of the affected cart line
(the merged quantity when the line already existed, the added quantity for a
new line) does not exceed the product's available stock as read at the time of
the call. -/
theorem addToCart_merged_qty_le_stock :
    ∀ (catalog : List Product) (pid : String) (qty : Nat)
      (cart : Option (List CartItem)) (p : Product),
      findById catalog pid = some p →
      (addToCart catalog pid qty cart).1 = .success →
      ∃ items', (addToCart catalog pid qty cart).2 = some items' ∧
        ∃ n, lineQty items' pid = some n ∧ n ≤ availableStock p := by
  intro catalog pid qty cart p hfind hs
  simp only [addToCart, hfind] at hs ⊢
  by_cases hq : availableStock p < qty
  · rw [if_pos hq] at hs; cases hs
  · rw [if_neg hq] at hs ⊢
    rcases cart with _ | items
    · exact ⟨[⟨pid, qty⟩], rfl, qty, by simp [lineQty], Nat.le_of_not_lt hq⟩
    · rcases addToExisting_success_qty hq items hs with ⟨n, hn, hle⟩
      exact ⟨_, rfl, n, hn, hle⟩

/-- C7 witness: merging three more units onto an existing line of four against
a stock of ten. -/
theorem addToCart_merged_qty_le_stock_witness :
    (addToCart catalogRice "p1" 3 (some [⟨"p1", 4⟩])).1 = .success ∧
    ∃ items', (addToCart catalogRice "p1" 3 (some [⟨"p1", 4⟩])).2 = some items' ∧
      ∃ n, lineQty items' "p1" = some n ∧
        n ≤ availableStock ⟨"p1", "Rice", 100, 10, 0, "ACTIVE"⟩ :=
  ⟨rfl, addToCart_merged_qty_le_stock catalogRice "p1" 3 (some [⟨"p1", 4⟩]) _ rfl rfl⟩

/-- C1: when the order-creation validation loop rejects a cart line for stock,
the outcome is the StockConflict error with the cart unchanged; when the
persistence write of the order record fails, the cart is unchanged; and the
cart state changes only when the order record was successfully persisted (the
cart is cleared only after the write). -/
theorem createOrder_stockConflict_cart_preserved :
    ∀ (req : CreateOrderRequest) (cart : Option (List CartItem))
      (addressFound : Bool) (catalog : List Product) (env : OrderEnv),
      (∀ (items : List CartItem) (n : String),
        truthy req.addressId = true → truthy req.paymentMethod = true →
        (req.paymentMethod == some "razorpay" &&
          (!(truthy req.razorpayOrderId) || !(truthy req.razorpayPaymentId))) = false →
        cart = some items → items.isEmpty = false → addressFound = true →
        buildOrderItems (resolveActive catalog) items = .error (.insufficientStock n) →
        createOrder req cart addressFound catalog env = (.stockConflict n, cart)) ∧
      (env.persistOk = false →
        (createOrder req cart addressFound catalog env).2 = cart) ∧
      ((createOrder req cart addressFound catalog env).2 ≠ cart →
        env.persistOk = true ∧
        ∃ o, (createOrder req cart addressFound catalog env).1 = .created o) := by
  intro req cart addressFound catalog env
  refine ⟨?_, ?_, ?_⟩
  · intro items n ha hpm hrz hc hne haf hbuild
    rw [createOrder_reaches_loop catalog env ha hpm hrz hc hne haf, hbuild, hc]
  · intro hpf
    rcases createOrder_snd_cases req cart addressFound catalog env with h | ⟨hp, _⟩
    · exact h
    · rw [hpf] at hp; cases hp
  · intro hdiff
    rcases createOrder_snd_cases req cart addressFound catalog env with h | ⟨hp, o, heq⟩
    · exact absurd h hdiff
    · exact ⟨hp, o, by rw [heq]⟩

/-- C1 witness: a cart asking for twenty units against a stock of ten is
rejected with StockConflict and stays as it was. -/
theorem createOrder_stockConflict_cart_preserved_witness :
    createOrder reqCod (some cartRice20) true catalogRice envReady =
      (.stockConflict "Rice", some cartRice20) :=
  (createOrder_stockConflict_cart_preserved reqCod (some cartRice20) true catalogRice
    envReady).1 cartRice20 "Rice" rfl rfl rfl rfl rfl rfl rfl

/-- C2: in every created order the recorded tax is exactly 18% of the recorded
subtotal, the recorded shipping fee is 0 exactly when the subtotal reaches 500
and 50 otherwise, and the recorded total differs from subtotal + tax +
shipping by at most 0.01 (here: by exactly 0); at the threshold, subtotal
499.99 pays fee 50 and subtotal 500.00 pays fee 0. -/
theorem createOrder_price_computation :
    (∀ (req : CreateOrderRequest) (cart : Option (List CartItem))
      (addressFound : Bool) (catalog : List Product) (env : OrderEnv)
      (o : AdminOrderRec),
      (createOrder req cart addressFound catalog env).1 = .created o →
      o.tax = o.subtotal * (18 / 100) ∧
      o.shipping = (if 500 ≤ o.subtotal then 0 else 50) ∧
      |o.total - (o.subtotal + o.tax + o.shipping)| ≤ 1 / 100) ∧
    deliveryFeeOf 499.99 = 50 ∧ deliveryFeeOf 500 = 0 := by
  refine ⟨?_, ?_, ?_⟩
  · intro req cart addressFound catalog env o ho
    rcases createOrder_created_inv ho with ⟨items, ois, sub, hc, hb, rfl, _⟩
    refine ⟨rfl, rfl, ?_⟩
    show |sub + taxOf sub + deliveryFeeOf sub -
      (sub + taxOf sub + deliveryFeeOf sub)| ≤ 1 / 100
    rw [sub_self, abs_zero]
    norm_num
  · norm_num [deliveryFeeOf, DELIVERY_FEE]
  · norm_num [deliveryFeeOf]

/-- C2 witness: the concrete cash-on-delivery checkout of two units at 100
creates an order satisfying the price invariants. -/
theorem createOrder_price_computation_witness :
    ∃ o, (createOrder reqCod (some cartRice2) true catalogRice envReady).1 = .created o ∧
      o.tax = o.subtotal * (18 / 100) ∧
      o.shipping = (if 500 ≤ o.subtotal then 0 else 50) ∧
      |o.total - (o.subtotal + o.tax + o.shipping)| ≤ 1 / 100 :=
  ⟨_, rfl, createOrder_price_computation.1 reqCod (some cartRice2) true catalogRice
    envReady _ rfl⟩

/-- C8: during order creation a cart line that does not resolve to an ACTIVE
product is a hard failure — no order record is written and the cart is
untouched — and every line of a created order resolves to a product with
status ACTIVE, so a product whose status is "unavailable" (or anything other
than ACTIVE) can never appear in a created order. -/
theorem createOrder_active_only :
    ∀ (req : CreateOrderRequest) (cart : Option (List CartItem))
      (addressFound : Bool) (catalog : List Product) (env : OrderEnv),
      (∀ items : List CartItem, cart = some items →
        (∃ it ∈ items, resolveActive catalog it.product = none) →
        writtenOrder (createOrder req cart addressFound catalog env).1 = none ∧
        (createOrder req cart addressFound catalog env).2 = cart) ∧
      (∀ o : AdminOrderRec,
        (createOrder req cart addressFound catalog env).1 = .created o →
        ∀ oi ∈ o.items, ∃ p : Product,
          resolveActive catalog oi.product = some p ∧ p.status = "ACTIVE") := by
  intro req cart addressFound catalog env
  constructor
  · rintro items hc ⟨it, hit, hnone⟩
    have hnc : ∀ o, (createOrder req cart addressFound catalog env).1 ≠ .created o := by
      intro o ho
      rcases createOrder_created_inv ho with ⟨items', ois, sub, hc', hb, _⟩
      rw [hc] at hc'
      injection hc' with hc'
      subst hc'
      rcases buildOrderItems_ok_resolves hb it hit with ⟨p, hp⟩
      rw [hnone] at hp
      cases hp
    constructor
    · rcases hres : (createOrder req cart addressFound catalog env).1 with
        _ | _ | _ | _ | _ | n | _ | _ | o <;> simp [writtenOrder]
      exact hnc o hres
    · rcases createOrder_snd_cases req cart addressFound catalog env with h | ⟨_, o, heq⟩
      · exact h
      · exact absurd (by rw [heq]) (hnc o)
  · intro o ho oi hoi
    rcases createOrder_created_inv ho with ⟨items, ois, sub, hc, hb, rfl, _⟩
    rcases buildOrderItems_ok_items hb oi hoi with ⟨it, hit, p, hp, rfl⟩
    rcases resolveActive_eq_some hp with ⟨hstat, hid⟩
    refine ⟨p, ?_, hstat⟩
    show resolveActive catalog p.id = some p
    rw [hid]
    exact hp

/-- C8 witness: a cart referencing a product absent from the ACTIVE-filtered
catalog makes createOrder fail without writing an order or touching the
cart. -/
theorem createOrder_active_only_witness :
    writtenOrder (createOrder reqCod (some [⟨"p2", 1⟩]) true catalogRice envReady).1 =
      none ∧
    (createOrder reqCod (some [⟨"p2", 1⟩]) true catalogRice envReady).2 =
      some [⟨"p2", 1⟩] :=
  (createOrder_active_only reqCod (some [⟨"p2", 1⟩]) true catalogRice envReady).1
    [⟨"p2", 1⟩] rfl ⟨⟨"p2", 1⟩, by decide, rfl⟩

/-- C9: while the shared order store is not ready, createOrder writes no order
record and leaves the cart unchanged, and an invocation that has passed the
request, cart, address and per-line validations fails with the retryable
service-unavailable outcome. -/
theorem createOrder_store_not_ready :
    ∀ (req : CreateOrderRequest) (cart : Option (List CartItem))
      (addressFound : Bool) (catalog : List Product) (env : OrderEnv),
      env.adminReady = false →
      (writtenOrder (createOrder req cart addressFound catalog env).1 = none ∧
        (createOrder req cart addressFound catalog env).2 = cart) ∧
      (∀ (items : List CartItem) (ois : List OrderItem) (sub : ℚ),
        truthy req.addressId = true → truthy req.paymentMethod = true →
        (req.paymentMethod == some "razorpay" &&
          (!(truthy req.razorpayOrderId) || !(truthy req.razorpayPaymentId))) = false →
        cart = some items → items.isEmpty = false → addressFound = true →
        buildOrderItems (resolveActive catalog) items = .ok (ois, sub) →
        (createOrder req cart addressFound catalog env).1 = .serviceUnavailable) := by
  intro req cart addressFound catalog env hready
  have hnc : ∀ o, (createOrder req cart addressFound catalog env).1 ≠ .created o := by
    intro o ho
    rcases createOrder_created_inv ho with ⟨_, _, _, _, _, _, hr, _⟩
    rw [hready] at hr
    cases hr
  constructor
  · constructor
    · rcases hres : (createOrder req cart addressFound catalog env).1 with
        _ | _ | _ | _ | _ | n | _ | _ | o <;> simp [writtenOrder]
      exact hnc o hres
    · rcases createOrder_snd_cases req cart addressFound catalog env with h | ⟨_, o, heq⟩
      · exact h
      · exact absurd (by rw [heq]) (hnc o)
  · intro items ois sub ha hpm hrz hc hne haf hbuild
    rw [createOrder_reaches_loop catalog env ha hpm hrz hc hne haf, hbuild]
    simp [hready]

/-- C9 witness: the sample checkout against a not-ready shared store fails
with service-unavailable, writes nothing and keeps the cart. -/
theorem createOrder_store_not_ready_witness :
    writtenOrder (createOrder reqCod (some cartRice2) true catalogRice envNotReady).1 =
      none ∧
    (createOrder reqCod (some cartRice2) true catalogRice envNotReady).2 =
      some cartRice2 ∧
    (createOrder reqCod (some cartRice2) true catalogRice envNotReady).1 =
      .serviceUnavailable :=
  ⟨(createOrder_store_not_ready reqCod (some cartRice2) true catalogRice envNotReady
      rfl).1.1,
   (createOrder_store_not_ready reqCod (some cartRice2) true catalogRice envNotReady
      rfl).1.2,
   (createOrder_store_not_ready reqCod (some cartRice2) true catalogRice envNotReady
      rfl).2 cartRice2 _ _ rfl rfl rfl rfl rfl rfl rfl⟩

end SCA
